import Mathlib

/-!
Verification of the reaction-counter core of `src/app.py` (`handle_react`,
lines 233-341), a Flask handler that applies one named reaction-counter
increment to one DynamoDB item via a two-phase conditional update and then
applies a moderation rule (delete the item once its "report" counter
exceeds 10).

The embedding models the DynamoDB table as a function from item key to an
optional item, and the two `update_item` calls of the handler with the
documented DynamoDB semantics of their condition expressions:

* `attribute_exists(reactions)` fails on a nonexistent item, so a failed
  condition performs no write;
* `attribute_not_exists(reactions)` on a nonexistent item SUCCEEDS, so the
  second `update_item` creates a fresh item (upsert) when the key is absent.

Concurrency is modelled by interference functions applied at the two points
where another caller can interleave: between the two conditional updates,
and between the successful update and the moderation delete. Every store
round trip in the handler is a single atomic operation, so any concurrent
schedule is a sequential interleaving of these atomic operations.
-/

set_option autoImplicit false

namespace App

/-- A DynamoDB item of the messages table as `handle_react` sees it:
the key attribute `id`, the opaque content attributes (`name`, `quote`,
`timestamp`, each possibly absent) and the optional nested `reactions`
map. The reactions map is an association list from reaction name to a
count, mirroring a DynamoDB map attribute with unique keys. -/
structure Item where
  id : String
  name : Option String
  quote : Option String
  timestamp : Option Nat
  reactions : Option (List (String × Nat))
deriving DecidableEq, Repr

/-- The DynamoDB table, keyed by the `id` attribute. -/
def Store : Type := String → Option Item

/-- Write (create or replace) the item stored under key `k`. -/
def putItem (s : Store) (k : String) (i : Item) : Store :=
  fun k' => if k' = k then some i else s k'

/-- `table.delete_item(Key=...)` (app.py line 313): unconditional delete by
primary key; succeeds whether or not the item exists. -/
def deleteItem (s : Store) (k : String) : Store :=
  fun k' => if k' = k then none else s k'

/-- Lookup in a reactions map with default 0, mirroring
`reactions.get(reaction_name, 0)` and the DynamoDB reading of an absent
counter as zero. -/
def getCount : List (String × Nat) → String → Nat
  | [], _ => 0
  | p :: rest, k => if p.1 = k then p.2 else getCount rest k

/-- The effect of `ADD reactions.rname :val` with `:val = 1` on a reactions
map: increment the entry if present, otherwise append it seeded from the
implicit zero, leaving every other entry in place. -/
def addReaction : List (String × Nat) → String → List (String × Nat)
  | [], k => [(k, 1)]
  | p :: rest, k => if p.1 = k then (p.1, p.2 + 1) :: rest else p :: addReaction rest k

/-- The first `table.update_item` of `handle_react` (app.py lines 267-279):
`ADD #reactions.#reaction_name :val` guarded by
`attribute_exists(#reactions)`, `ReturnValues=ALL_NEW`.
Returns `none` when the condition fails (item absent, or item present
without a `reactions` attribute), in which case nothing is written;
otherwise returns the post-update item (the ALL_NEW attributes) and the
updated store. -/
def updateAddReaction (s : Store) (qid rname : String) : Option (Item × Store) :=
  match s qid with
  | none => none
  | some i =>
    match i.reactions with
    | none => none
    | some m =>
      let j := { i with reactions := some (addReaction m rname) }
      some (j, putItem s qid j)

/-- The second `table.update_item` of `handle_react` (app.py lines 291-302):
`SET #reactions = :initial_map` with `:initial_map = ` the singleton map
assigning 1 to the incoming reaction name, guarded by
`attribute_not_exists(#reactions)`, `ReturnValues=ALL_NEW`.
Per DynamoDB semantics the condition `attribute_not_exists(reactions)` is
satisfied by a NONEXISTENT item, so when the key is absent this update
creates a fresh item holding only the key and the new reactions map.
Returns `none` exactly when the item exists and already has a `reactions`
attribute (condition failure, no write). -/
def updateSetReactions (s : Store) (qid rname : String) : Option (Item × Store) :=
  match s qid with
  | none =>
    let j : Item := { id := qid, name := none, quote := none, timestamp := none,
                      reactions := some [(rname, 1)] }
    some (j, putItem s qid j)
  | some i =>
    match i.reactions with
    | none =>
      let j := { i with reactions := some [(rname, 1)] }
      some (j, putItem s qid j)
    | some _ => none

/-- The two-phase conditional update of `handle_react` (app.py lines
264-305): try the fast-path increment; on its
`ConditionalCheckFailedException` fall back to the map-creating update.
`mid` is the interference of concurrent callers in the window between the
two round trips (`id` when the call runs alone). A second condition
failure is not retried: the exception propagates, and the error value
carries the store as it stands at that point (this call wrote nothing). -/
def incrementPhase (mid : Store → Store) (qid rname : String) (s : Store) :
    Except Store (Item × Store) :=
  match updateAddReaction s qid rname with
  | some r => Except.ok r
  | none =>
    match updateSetReactions (mid s) qid rname with
    | some r => Except.ok r
    | none => Except.error (mid s)

/-- Outcome of one `handle_react` request, as surfaced over HTTP. -/
inductive ReactResult where
  /-- 400 with an error message (app.py lines 256-258). -/
  | badRequest (msg : String)
  /-- 200 with `jsonify(response[ALL_NEW attributes])` (app.py line 324):
  the entire post-update item. -/
  | ok (attrs : Item)
  /-- 200 with the deletion message (app.py lines 316-318). -/
  | deleted
  /-- 404 "Quote not found" from the outer
  `ConditionalCheckFailedException` handler (app.py lines 327-329). -/
  | notFound
deriving DecidableEq, Repr

/-- The body of `handle_react` (app.py lines 248-341) for a JSON request.
`body` is the value of the "reaction" field of the request body, `none`
when the field is missing; `data.get` followed by the falsiness test
`if not reaction_name` rejects both a missing field and an empty string
with 400 before any store call. `mid` is concurrent interference between
the two conditional updates, `post` is concurrent interference between the
successful update and the moderation delete (both `id` when the call runs
alone). After a successful update, if the reaction is "report" and the
ALL_NEW report count exceeds 10, the item is deleted and the deletion
message returned; otherwise the full ALL_NEW item is returned. A
`ConditionalCheckFailedException` escaping the two-phase update is mapped
to 404 "Quote not found" by the outer handler. -/
def handleReactI (mid post : Store → Store) (qid : String) (body : Option String)
    (s : Store) : ReactResult × Store :=
  match body with
  | none => (ReactResult.badRequest "Reaction name is required", s)
  | some rname =>
    if rname = "" then (ReactResult.badRequest "Reaction name is required", s)
    else
      match incrementPhase mid qid rname s with
      | Except.error sErr => (ReactResult.notFound, sErr)
      | Except.ok (j, s₁) =>
        let s₂ := post s₁
        if rname = "report" ∧ 10 < getCount (j.reactions.getD []) "report" then
          (ReactResult.deleted, deleteItem s₂ qid)
        else
          (ReactResult.ok j, s₂)

/-- `handle_react` for a call that runs with no concurrent interference. -/
def handleReact (qid : String) (body : Option String) (s : Store) :
    ReactResult × Store :=
  handleReactI id id qid body s

/-- `n` consecutive `handle_react` calls with the same reaction on the same
item. Because each call on the fast path performs exactly one atomic store
operation, any concurrent schedule of `n` such calls linearizes to this
sequential composition. -/
def iterateReact (qid rname : String) : Nat → Store → Store
  | 0, s => s
  | n + 1, s => iterateReact qid rname n (handleReact qid (some rname) s).2

/-- The count a given reaction shows in the store for a given item key:
zero when the item or its reactions map is absent. -/
def storeCount (s : Store) (qid rname : String) : Nat :=
  match s qid with
  | none => 0
  | some i => getCount (i.reactions.getD []) rname

/-- Fixture: a legacy item (no `reactions` attribute) with content fields. -/
def legacyItem : Item := ⟨"q1", some "bob", some "witty words", some 5, none⟩

/-- Fixture: a store holding only `legacyItem` under key "q1". -/
def legacyStore : Store := fun k => if k = "q1" then some legacyItem else none

/-- Fixture: a migrated item whose "report" counter stands at the
threshold value 10. -/
def countedItem : Item :=
  ⟨"q1", some "bob", some "witty words", some 5, some [("laugh", 5), ("report", 10)]⟩

/-- Fixture: a store holding only `countedItem` under key "q1". -/
def countedStore : Store := fun k => if k = "q1" then some countedItem else none

/-- Fixture: a store with no items at all. -/
def emptyStore : Store := fun _ => none

/-- Fixture: interference by a concurrent caller that wins the migration
race on "q1", creating the reactions map with its own increment. -/
def racingMigration : Store → Store :=
  fun s => putItem s "q1" { legacyItem with reactions := some [("laugh", 1)] }

/-- Fixture: the item produced by migrating `legacyItem` with a "love"
reaction. -/
def migratedLegacyItem : Item := { legacyItem with reactions := some [("love", 1)] }

/-- Fixture: the store produced from `legacyStore` by that migration. -/
def migratedLegacyStore : Store := putItem legacyStore "q1" migratedLegacyItem

theorem putItem_self (s : Store) (k : String) (i : Item) : putItem s k i k = some i := by
  simp [putItem]

theorem putItem_ne (s : Store) (k : String) (i : Item) (k' : String) (h : k' ≠ k) :
    putItem s k i k' = s k' := by
  simp [putItem, h]

theorem deleteItem_self (s : Store) (k : String) : deleteItem s k k = none := by
  simp [deleteItem]

theorem getCount_addReaction_self (m : List (String × Nat)) (k : String) :
    getCount (addReaction m k) k = getCount m k + 1 := by
  induction m with
  | nil => simp [addReaction, getCount]
  | cons p rest ih =>
    by_cases h : p.1 = k
    · simp [addReaction, getCount, h]
    · simp [addReaction, getCount, h, ih]

theorem getCount_addReaction_ne (m : List (String × Nat)) (k k' : String) (h : k' ≠ k) :
    getCount (addReaction m k) k' = getCount m k' := by
  have h' : k ≠ k' := Ne.symm h
  induction m with
  | nil => simp [addReaction, getCount, h']
  | cons p rest ih =>
    by_cases hp : p.1 = k
    · simp [addReaction, getCount, hp, h']
    · simp [addReaction, getCount, hp, ih]

theorem getCount_eq_zero_of_not_mem (m : List (String × Nat)) (k : String)
    (h : ∀ p ∈ m, p.1 ≠ k) : getCount m k = 0 := by
  induction m with
  | nil => rfl
  | cons p rest ih =>
    have hp : p.1 ≠ k := h p (List.mem_cons_self p rest)
    simp only [getCount, if_neg hp]
    exact ih fun q hq => h q (List.mem_cons_of_mem p hq)

theorem addReaction_of_not_mem (m : List (String × Nat)) (k : String)
    (h : ∀ p ∈ m, p.1 ≠ k) : addReaction m k = m ++ [(k, 1)] := by
  induction m with
  | nil => rfl
  | cons p rest ih =>
    have hp : p.1 ≠ k := h p (List.mem_cons_self p rest)
    simp only [addReaction, if_neg hp, List.cons_append, List.cons.injEq, true_and]
    exact ih fun q hq => h q (List.mem_cons_of_mem p hq)

theorem updateAddReaction_eq (s : Store) (qid rname : String) (i : Item)
    (m : List (String × Nat)) (hi : s qid = some i) (hm : i.reactions = some m) :
    updateAddReaction s qid rname =
      some ({ i with reactions := some (addReaction m rname) },
        putItem s qid { i with reactions := some (addReaction m rname) }) := by
  simp [updateAddReaction, hi, hm]

/-- Reduction of a `handle_react` call that takes the fast path: the item
exists and already carries a reactions map, so the conditional ADD
succeeds and only the moderation branch remains. -/
theorem handleReactI_fast (mid post : Store → Store) (s : Store) (qid rname : String)
    (i : Item) (m : List (String × Nat))
    (hi : s qid = some i) (hm : i.reactions = some m) (hne : rname ≠ "") :
    handleReactI mid post qid (some rname) s =
      if rname = "report" ∧ 10 < getCount (addReaction m rname) "report" then
        (ReactResult.deleted,
          deleteItem (post (putItem s qid { i with reactions := some (addReaction m rname) })) qid)
      else
        (ReactResult.ok { i with reactions := some (addReaction m rname) },
          post (putItem s qid { i with reactions := some (addReaction m rname) })) := by
  simp [handleReactI, incrementPhase, updateAddReaction_eq s qid rname i m hi hm, hne]

/-- Reduction of an interference-free `handle_react` call on a legacy item:
the fast path fails, the migration update succeeds and seeds the map, and
the moderation branch never fires because the sole count is 1. -/
theorem handleReact_migrate (s : Store) (qid rname : String) (i : Item)
    (hi : s qid = some i) (hr : i.reactions = none) (hne : rname ≠ "") :
    handleReact qid (some rname) s =
      (ReactResult.ok { i with reactions := some [(rname, 1)] },
        putItem s qid { i with reactions := some [(rname, 1)] }) := by
  have hcond : ¬(rname = "report" ∧ 10 < getCount [(rname, 1)] "report") := by
    rintro ⟨hrep, hlt⟩
    subst hrep
    simp [getCount] at hlt
  simp [handleReact, handleReactI, incrementPhase, updateAddReaction, updateSetReactions,
    hi, hr, hne, hcond]

/-- Claim C1. The claim states that a react call on a nonexistent record
performs no write and returns 404 "Quote not found". The code does the
opposite: on a missing item the fast path condition
`attribute_exists(reactions)` fails, and the migration update condition
`attribute_not_exists(reactions)` is satisfied by the nonexistent item, so
`update_item` upserts a phantom record holding only the key and the seeded
reactions map, and the handler returns 200 with it; the 404 branch never
fires for a missing record. This theorem evaluates the handler at the
failing input: an empty store and a react("q1", "laugh") call. -/
theorem c1_missing_record_upserted :
    (handleReact "q1" (some "laugh") emptyStore).1 =
        ReactResult.ok ⟨"q1", none, none, none, some [("laugh", 1)]⟩ ∧
    (handleReact "q1" (some "laugh") emptyStore).2 "q1" =
        some ⟨"q1", none, none, none, some [("laugh", 1)]⟩ ∧
    (handleReact "q1" (some "laugh") emptyStore).1 ≠ ReactResult.notFound := by
  decide

/-- Claim C2, counterexample. The claim states that when the fast path
fails on a legacy record and a concurrent caller wins the migration race,
the updater retries from the fast path so the increment is still applied.
In the code there is no retry: the second ConditionalCheckFailedException
propagates to the outer handler. Concretely, on a legacy record whose map
is created concurrently between the two updates, the call returns 404
"Quote not found" and the final laugh count is 1 — only the concurrent
winners increment — so this call lost its increment. -/
theorem c2_no_retry_counterexample :
    (handleReactI racingMigration id "q1" (some "laugh") legacyStore).1 =
        ReactResult.notFound ∧
    (handleReactI racingMigration id "q1" (some "laugh") legacyStore).2 "q1" =
        some { legacyItem with reactions := some [("laugh", 1)] } := by
  decide

/-- Claim C2, amended. If the fast-path conditional increment fails
because the counters map is absent, and the migration update also fails
its precondition because a concurrent caller created the map in between,
the handler does not retry: the condition failure propagates to the outer
handler, the call returns 404 "Quote not found", and this call writes
nothing (the resulting store is exactly the interfered store). -/
theorem c2_migration_race_returns_notFound (mid : Store → Store) (s : Store)
    (qid rname : String) (i j : Item) (m : List (String × Nat))
    (hne : rname ≠ "") (hi : s qid = some i) (hr : i.reactions = none)
    (hj : mid s qid = some j) (hjr : j.reactions = some m) :
    handleReactI mid id qid (some rname) s = (ReactResult.notFound, mid s) := by
  simp [handleReactI, incrementPhase, updateAddReaction, updateSetReactions,
    hi, hr, hj, hjr, hne]

/-- Witness for claim C2 at a concrete input: legacy record "q1",
concurrent migration seeding laugh to 1, incoming "laugh" reaction. -/
theorem c2_witness :
    handleReactI racingMigration id "q1" (some "laugh") legacyStore =
      (ReactResult.notFound, racingMigration legacyStore) :=
  c2_migration_race_returns_notFound racingMigration legacyStore "q1" "laugh"
    legacyItem { legacyItem with reactions := some [("laugh", 1)] } [("laugh", 1)]
    (by decide) rfl rfl (by decide) rfl

/-- Claim C4. Starting from an existing record with no counters field, a
single increment call leaves the record with the counters map being
exactly the singleton assigning 1 to the incoming counter name, and
returns it with 200. -/
theorem c4_migration_seeds_map (s : Store) (qid rname : String) (i : Item)
    (hi : s qid = some i) (hr : i.reactions = none) (hne : rname ≠ "") :
    (handleReact qid (some rname) s).2 qid =
        some { i with reactions := some [(rname, 1)] } ∧
    (handleReact qid (some rname) s).1 =
        ReactResult.ok { i with reactions := some [(rname, 1)] } := by
  rw [handleReact_migrate s qid rname i hi hr hne]
  exact ⟨putItem_self s qid _, rfl⟩

/-- Witness for claim C4: the legacy fixture record and a "love"
reaction. -/
theorem c4_witness :
    (handleReact "q1" (some "love") legacyStore).2 "q1" =
        some { legacyItem with reactions := some [("love", 1)] } ∧
    (handleReact "q1" (some "love") legacyStore).1 =
        ReactResult.ok { legacyItem with reactions := some [("love", 1)] } :=
  c4_migration_seeds_map legacyStore "q1" "love" legacyItem rfl rfl (by decide)

/-- Claim C10. A react request whose body lacks the "reaction" field, or
carries the empty string, is rejected with 400 "Reaction name is required"
before any store operation: the store is returned unchanged. -/
theorem c10_missing_reaction_rejected (s : Store) (qid : String)
    (body : Option String) (h : body = none ∨ body = some "") :
    handleReact qid body s = (ReactResult.badRequest "Reaction name is required", s) := by
  rcases h with h | h <;> subst h <;> rfl

/-- Witness for claim C10: a missing "reaction" field against the counted
fixture store. -/
theorem c10_witness :
    handleReact "q1" none countedStore =
      (ReactResult.badRequest "Reaction name is required", countedStore) :=
  c10_missing_reaction_rejected countedStore "q1" none (Or.inl rfl)

/-- Claim C3. For a record whose counters map exists: an increment of
"report" deletes the record exactly when the post-increment report count
exceeds 10 (so a record at 10 is kept until the increment to 11), and an
increment of any other counter name never deletes the record, whatever its
counts hold. -/
theorem c3_threshold_boundary (s : Store) (qid : String) (i : Item)
    (m : List (String × Nat)) (rname : String)
    (hi : s qid = some i) (hm : i.reactions = some m)
    (ho : rname ≠ "report") (hne : rname ≠ "") :
    ((handleReact qid (some "report") s).1 = ReactResult.deleted ↔
        10 < getCount (addReaction m "report") "report") ∧
    ((handleReact qid (some "report") s).2 qid = none ↔
        10 < getCount (addReaction m "report") "report") ∧
    (handleReact qid (some rname) s).1 ≠ ReactResult.deleted ∧
    (handleReact qid (some rname) s).2 qid =
        some { i with reactions := some (addReaction m rname) } := by
  have hrep := handleReactI_fast id id s qid "report" i m hi hm (by decide)
  have hoth := handleReactI_fast id id s qid rname i m hi hm hne
  have hcond2 : ¬(rname = "report" ∧ 10 < getCount (addReaction m rname) "report") := by
    rintro ⟨hc, _⟩
    exact ho hc
  unfold handleReact
  rw [hrep, hoth, if_neg hcond2]
  by_cases hth : 10 < getCount (addReaction m "report") "report"
  · have hcond1 : ("report" : String) = "report" ∧
        10 < getCount (addReaction m "report") "report" := ⟨rfl, hth⟩
    rw [if_pos hcond1]
    exact ⟨by simp [hth], by simp [deleteItem, hth], by simp, by simp [putItem]⟩
  · have hcond1 : ¬(("report" : String) = "report" ∧
        10 < getCount (addReaction m "report") "report") := by
      rintro ⟨_, hc⟩
      exact hth hc
    rw [if_neg hcond1]
    exact ⟨by simp [hth], by simp [putItem, hth], by simp, by simp [putItem]⟩

/-- Witness for claim C3 at the boundary: the counted fixture record holds
report = 10, so the resulting count 11 exceeds the threshold and the
record is deleted, while a "laugh" increment never deletes. -/
theorem c3_witness :
    ((handleReact "q1" (some "report") countedStore).1 = ReactResult.deleted ↔
        10 < getCount (addReaction [("laugh", 5), ("report", 10)] "report") "report") ∧
    ((handleReact "q1" (some "report") countedStore).2 "q1" = none ↔
        10 < getCount (addReaction [("laugh", 5), ("report", 10)] "report") "report") ∧
    (handleReact "q1" (some "laugh") countedStore).1 ≠ ReactResult.deleted ∧
    (handleReact "q1" (some "laugh") countedStore).2 "q1" =
        some { countedItem with
          reactions := some (addReaction [("laugh", 5), ("report", 10)] "laugh") } :=
  c3_threshold_boundary countedStore "q1" countedItem [("laugh", 5), ("report", 10)]
    "laugh" rfl rfl (by decide) (by decide)

/-- Claim C5, counterexample. The claim states that a successful
non-deleting increment answers with the counter mapping and not other
record content. The handler returns `jsonify` of the ALL_NEW attributes:
the whole updated item. At a concrete input the 200 payload carries the
quote text and the author name alongside the counters, so the payload is
not the counter mapping alone. -/
theorem c5_full_item_counterexample :
    (handleReact "q1" (some "laugh") countedStore).1 =
        ReactResult.ok
          { countedItem with reactions := some [("laugh", 6), ("report", 10)] } ∧
    ({ countedItem with reactions := some [("laugh", 6), ("report", 10)] } : Item).quote =
        some "witty words" ∧
    ({ countedItem with reactions := some [("laugh", 6), ("report", 10)] } : Item).name =
        some "bob" := by
  decide

/-- Claim C5, amended. A successful increment that does not trigger
deletion returns 200 with the entire post-update item (the ALL_NEW
attributes), which contains the full post-increment counter map among the
rest of the record fields. -/
theorem c5_ok_returns_all_new_item (s : Store) (qid rname : String) (i : Item)
    (m : List (String × Nat)) (hi : s qid = some i) (hm : i.reactions = some m)
    (hne : rname ≠ "")
    (hnd : ¬(rname = "report" ∧ 10 < getCount (addReaction m rname) "report")) :
    (handleReact qid (some rname) s).1 =
      ReactResult.ok { i with reactions := some (addReaction m rname) } := by
  unfold handleReact
  rw [handleReactI_fast id id s qid rname i m hi hm hne, if_neg hnd]

/-- Witness for claim C5: a "laugh" increment on the counted fixture
record. -/
theorem c5_witness :
    (handleReact "q1" (some "laugh") countedStore).1 =
      ReactResult.ok { countedItem with
        reactions := some (addReaction [("laugh", 5), ("report", 10)] "laugh") } :=
  c5_ok_returns_all_new_item countedStore "q1" "laugh" countedItem
    [("laugh", 5), ("report", 10)] rfl rfl (by decide) (by decide)

/-- Claim C6. On an existing record whose counters map is present but
lacks the incoming counter name, the increment treats the absent counter
as zero: the resulting map is the old map with the new counter appended at
1, reading 1 for the new name and unchanged for every other name. -/
theorem c6_absent_counter_seeded (s : Store) (qid rname k : String) (i : Item)
    (m : List (String × Nat)) (hi : s qid = some i) (hm : i.reactions = some m)
    (habs : ∀ p ∈ m, p.1 ≠ rname) (hne : rname ≠ "") (hk : k ≠ rname) :
    (handleReact qid (some rname) s).2 qid =
        some { i with reactions := some (m ++ [(rname, 1)]) } ∧
    getCount (m ++ [(rname, 1)]) rname = 1 ∧
    getCount (m ++ [(rname, 1)]) k = getCount m k := by
  have hadd : addReaction m rname = m ++ [(rname, 1)] := addReaction_of_not_mem m rname habs
  have h1 : getCount (addReaction m rname) rname = 1 := by
    rw [getCount_addReaction_self, getCount_eq_zero_of_not_mem m rname habs]
  have hnd : ¬(rname = "report" ∧ 10 < getCount (addReaction m rname) "report") := by
    rintro ⟨hrep, hlt⟩
    subst hrep
    rw [h1] at hlt
    omega
  unfold handleReact
  rw [handleReactI_fast id id s qid rname i m hi hm hne, if_neg hnd]
  refine ⟨?_, ?_, ?_⟩
  · simp [putItem_self, hadd]
  · rw [← hadd]; exact h1
  · rw [← hadd]; exact getCount_addReaction_ne m rname k hk

/-- Witness for claim C6: a "love" increment on the counted fixture
record, whose map lacks "love"; "laugh" stays unchanged. -/
theorem c6_witness :
    (handleReact "q1" (some "love") countedStore).2 "q1" =
        some { countedItem with
          reactions := some ([("laugh", 5), ("report", 10)] ++ [("love", 1)]) } ∧
    getCount ([("laugh", 5), ("report", 10)] ++ [("love", 1)]) "love" = 1 ∧
    getCount ([("laugh", 5), ("report", 10)] ++ [("love", 1)]) "laugh" =
        getCount [("laugh", 5), ("report", 10)] "laugh" :=
  c6_absent_counter_seeded countedStore "q1" "love" "laugh" countedItem
    [("laugh", 5), ("report", 10)] rfl rfl (by decide) (by decide) (by decide)

/-- Claim C7. The two-phase update phase of a react call (app.py lines
264-305, the increment itself, before the orchestration delete) mutates at
most the target record: any other key reads unchanged, and on the target
record every field other than `reactions` (the id, author name, quote
content, creation timestamp) is preserved. -/
theorem c7_frame (s : Store) (qid rname k : String) (j : Item) (s' : Store) (i : Item)
    (h : incrementPhase id qid rname s = Except.ok (j, s'))
    (hk : k ≠ qid) (hi : s qid = some i) :
    s' k = s k ∧ s' qid = some j ∧ j.id = i.id ∧ j.name = i.name ∧
      j.quote = i.quote ∧ j.timestamp = i.timestamp := by
  rcases hr : i.reactions with _ | m
  · simp [incrementPhase, updateAddReaction, updateSetReactions, hi, hr] at h
    obtain ⟨hj, hs⟩ := h
    subst hj
    subst hs
    exact ⟨putItem_ne s qid _ k hk, putItem_self s qid _, rfl, rfl, rfl, rfl⟩
  · simp [incrementPhase, updateAddReaction, hi, hr] at h
    obtain ⟨hj, hs⟩ := h
    subst hj
    subst hs
    exact ⟨putItem_ne s qid _ k hk, putItem_self s qid _, rfl, rfl, rfl, rfl⟩

/-- Witness for claim C7: migrating the legacy fixture record with a
"love" reaction leaves key "q2" and every non-reactions field of "q1"
untouched. -/
theorem c7_witness :
    migratedLegacyStore "q2" = legacyStore "q2" ∧
    migratedLegacyStore "q1" = some migratedLegacyItem ∧
    migratedLegacyItem.id = legacyItem.id ∧
    migratedLegacyItem.name = legacyItem.name ∧
    migratedLegacyItem.quote = legacyItem.quote ∧
    migratedLegacyItem.timestamp = legacyItem.timestamp :=
  c7_frame legacyStore "q1" "love" "q2" migratedLegacyItem migratedLegacyStore legacyItem
    rfl (by decide) rfl

/-- Claim C8. When the post-increment report count exceeds the threshold
but the record has already been removed by a concurrent caller before this
call issues its delete, the unconditional `delete_item` still succeeds:
the call returns the Deleted outcome and no error, and the record is
absent afterwards. -/
theorem c8_idempotent_delete (s : Store) (qid : String) (i : Item)
    (m : List (String × Nat)) (hi : s qid = some i) (hm : i.reactions = some m)
    (hth : 10 < getCount (addReaction m "report") "report") :
    (handleReactI id (fun t => deleteItem t qid) qid (some "report") s).1 =
        ReactResult.deleted ∧
    (handleReactI id (fun t => deleteItem t qid) qid (some "report") s).2 qid = none := by
  rw [handleReactI_fast id (fun t => deleteItem t qid) s qid "report" i m hi hm (by decide),
    if_pos ⟨rfl, hth⟩]
  exact ⟨rfl, deleteItem_self _ qid⟩

/-- Witness for claim C8: the counted fixture record crosses the threshold
(10 to 11) while a concurrent caller deletes it first. -/
theorem c8_witness :
    (handleReactI id (fun t => deleteItem t "q1") "q1" (some "report") countedStore).1 =
        ReactResult.deleted ∧
    (handleReactI id (fun t => deleteItem t "q1") "q1" (some "report") countedStore).2 "q1" =
        none :=
  c8_idempotent_delete countedStore "q1" countedItem [("laugh", 5), ("report", 10)]
    rfl rfl (by decide)

/-- Helper for claim C9: a sequence of n "laugh" reactions on a migrated
record keeps the record, leaves every non-reactions field in place, and
raises the laugh count by exactly n. -/
theorem iterate_laugh_adds (n : Nat) (s : Store) (qid : String) (i : Item)
    (m : List (String × Nat)) (hi : s qid = some i) (hm : i.reactions = some m) :
    ∃ m', iterateReact qid "laugh" n s qid = some { i with reactions := some m' } ∧
      getCount m' "laugh" = getCount m "laugh" + n := by
  induction n generalizing s i m with
  | zero =>
    refine ⟨m, ?_, rfl⟩
    simp only [iterateReact]
    rw [hi, ← hm]
  | succ n ih =>
    have hstep := handleReactI_fast id id s qid "laugh" i m hi hm (by decide)
    rw [if_neg (by rintro ⟨hc, _⟩; exact absurd hc (by decide))] at hstep
    have hstep' : (handleReact qid (some "laugh") s).2 =
        putItem s qid { i with reactions := some (addReaction m "laugh") } := by
      unfold handleReact
      rw [hstep]
      rfl
    obtain ⟨m', h1, h2⟩ := ih (putItem s qid { i with reactions := some (addReaction m "laugh") })
      { i with reactions := some (addReaction m "laugh") } (addReaction m "laugh")
      (putItem_self s qid _) rfl
    refine ⟨m', ?_, ?_⟩
    · simp only [iterateReact]
      rw [hstep']
      exact h1
    · rw [h2, getCount_addReaction_self]
      omega

/-- Claim C9. Any schedule of n concurrent "laugh" increments on a record
whose counters map already exists linearizes (each call is a single atomic
conditional ADD that always succeeds) to n sequential calls, and the final
laugh count equals the initial count plus n: every increment is applied
exactly once. -/
theorem c9_exactly_once (n : Nat) (s : Store) (qid : String) (i : Item)
    (m : List (String × Nat)) (hi : s qid = some i) (hm : i.reactions = some m) :
    storeCount (iterateReact qid "laugh" n s) qid "laugh" =
      storeCount s qid "laugh" + n := by
  obtain ⟨m', h1, h2⟩ := iterate_laugh_adds n s qid i m hi hm
  simp [storeCount, h1, hi, hm, h2]

/-- Witness for claim C9: three "laugh" reactions on the counted fixture
record raise the stored laugh count from 5 to 8. -/
theorem c9_witness :
    storeCount (iterateReact "q1" "laugh" 3 countedStore) "q1" "laugh" =
      storeCount countedStore "q1" "laugh" + 3 :=
  c9_exactly_once 3 countedStore "q1" countedItem [("laugh", 5), ("report", 10)] rfl rfl

end App
